import Mathlib

/-!
# Prometheus configuration template of the monitor package

A shallow embedding of `pkg/monitor/monitor/template.go`: the configuration
document assembled by `newPrometheusConfig`, `addTlsConfig` and
`addAlertManagerUrl`, and the renderer `RenderPrometheusConfig`.

Go strings are modelled by `String`, slices by `List` (a nil slice and an
empty slice are both `[]`), pointers that the code dereferences without a
check by `Option`, and a run-time panic by `Except.error`.
-/

namespace Monitor

/-! ## Regular expressions (the part of Go `regexp` the fixed patterns use) -/

/-- Abstract syntax of a compiled regular expression. `cls negated ranges`
is a character class given by inclusive ranges, `beginText` and `endText`
are the zero-width assertions written `^` and `$` (without the multi-line
flag), `group` is a capturing group. -/
inductive Regex where
  | fail
  | empty
  | cls (negated : Bool) (ranges : List (Char × Char))
  | beginText
  | endText
  | cat (a b : Regex)
  | alt (a b : Regex)
  | star (a : Regex)
  | group (a : Regex)
deriving DecidableEq, Repr

namespace Regex

/-- A single literal character. -/
def char (c : Char) : Regex := cls false [(c, c)]

/-- A literal string. -/
def lit : List Char → Regex
  | [] => empty
  | c :: cs => cat (char c) (lit cs)

/-- The class `.`: every character except the line feed. -/
def dot : Regex := cls true [(Char.ofNat 10, Char.ofNat 10)]

/-- The class `\d`: the ASCII digits. -/
def digit : Regex := cls false [('0', '9')]

/-- One or more repetitions, `a+`. -/
def plus (a : Regex) : Regex := cat a (star a)

/-- Zero or one occurrence, `a?`. -/
def opt (a : Regex) : Regex := alt a empty

/-- Membership of a character in a class. -/
def inClass (negated : Bool) (ranges : List (Char × Char)) (c : Char) : Bool :=
  xor negated (ranges.any fun r => decide (r.1 ≤ c) && decide (c ≤ r.2))

/-- Whether the expression matches the empty string at a position, given
whether that position is the start of the text (`st`) and whether it is the
last position of the text (`en`). -/
def nullable (st en : Bool) : Regex → Bool
  | fail => false
  | empty => true
  | cls _ _ => false
  | beginText => st
  | endText => en
  | cat a b => nullable st en a && nullable st en b
  | alt a b => nullable st en a || nullable st en b
  | star _ => true
  | group a => nullable st en a

/-- Brzozowski derivative: what remains to be matched after reading `c` at a
position that is (`st`) or is not the start of the text. -/
def deriv (st : Bool) (c : Char) : Regex → Regex
  | fail => fail
  | empty => fail
  | cls n rs => if inClass n rs c then empty else fail
  | beginText => fail
  | endText => fail
  | cat a b =>
    alt (cat (deriv st c a) b) (if nullable st false a then deriv st c b else fail)
  | alt a b => alt (deriv st c a) (deriv st c b)
  | star a => cat (deriv st c a) (star a)
  | group a => deriv st c a

/-- Whether some match of `r` begins at the current position of the text,
whose remaining characters are the list. -/
def matchHere (st : Bool) (r : Regex) : List Char → Bool
  | [] => nullable st true r
  | c :: cs => nullable st false r || matchHere false (deriv st c r) cs

/-- Unanchored search: whether `r` matches some substring of the text. -/
def search (st : Bool) (r : Regex) : List Char → Bool
  | [] => nullable st true r
  | c :: cs => matchHere st r (c :: cs) || search false r cs

/-- Go `(*regexp.Regexp).MatchString`. -/
def MatchString (r : Regex) (s : String) : Bool := search true r s.data

/-- The wrapping `"^(?:" + s + ")$"` that `config.NewRegexp` compiles. -/
def anchored (r : Regex) : Regex := cat beginText (cat r endText)

/-- Iteration of a matching relation `D` over consecutive non-empty pieces. -/
inductive StarMatches (D : Bool → List Char → Bool → Prop) (en : Bool) : Bool → List Char → Prop
  | nil (st : Bool) : StarMatches D en st []
  | cons (st : Bool) (s s1 s2 : List Char) : s = s1 ++ s2 → s1 ≠ [] →
      D st s1 (en && s2.isEmpty) → StarMatches D en false s2 → StarMatches D en st s

/-- Declarative meaning of an expression: `Matches r st s en` says that `r`
matches exactly the piece `s` of a text, where `st` tells whether the piece
begins at the start of the text and `en` whether it ends at its end. -/
def Matches : Regex → Bool → List Char → Bool → Prop
  | fail, _, _, _ => False
  | empty, _, s, _ => s = []
  | cls n rs, _, s, _ => ∃ c, s = [c] ∧ inClass n rs c = true
  | beginText, st, s, _ => s = [] ∧ st = true
  | endText, _, s, en => s = [] ∧ en = true
  | cat a b, st, s, en => ∃ s1 s2, s = s1 ++ s2 ∧
      Matches a st s1 (en && s2.isEmpty) ∧ Matches b (st && s1.isEmpty) s2 en
  | alt a b, st, s, en => Matches a st s en ∨ Matches b st s en
  | star a, st, s, en => StarMatches (Matches a) en st s
  | group a, st, s, en => Matches a st s en

end Regex

/-- Prometheus `config.Regexp`: the compiled expression (nil in the zero
value) and the text it was built from. -/
structure Regexp where
  compiled : Option Regex := none
  original : String := ""
deriving DecidableEq, Repr

/-- The method `MatchString` promoted from the embedded `*regexp.Regexp`;
`none` is the nil-pointer panic of the zero value. -/
def Regexp.MatchString (re : Regexp) (s : String) : Option Bool :=
  re.compiled.map fun r => r.MatchString s

/-! ## Constants of the package -/

def instanceLabel : String := "__meta_kubernetes_pod_label_app_kubernetes_io_instance"
def scrapeLabel : String := "__meta_kubernetes_pod_annotation_prometheus_io_scrape"
def metricsPathLabel : String := "__meta_kubernetes_pod_annotation_prometheus_io_path"
def namespaceLabel : String := "__meta_kubernetes_namespace"
def podNameLabel : String := "__meta_kubernetes_pod_name"
def nodeNameLabel : String := "__meta_kubernetes_pod_node_name"
def podIPLabel : String := "__meta_kubernetes_pod_ip"
def caFilePath : String := "/var/run/secrets/kubernetes.io/serviceaccount/ca.crt"
def certFilePath : String := "/var/lib/pd-client-tls/cert"
def keyFilePath : String := "/var/lib/pd-client-tls/key"

/-- Prometheus `config.RelabelReplace`. -/
def RelabelReplace : String := "replace"
/-- Prometheus `config.RelabelKeep`. -/
def RelabelKeep : String := "keep"

/-- The value of `15 * time.Second`, in nanoseconds. -/
def fifteenSeconds : Int := 15 * 1000000000

/-- Result of `config.NewRegexp("true")` in `init`. -/
def truePattern : Regexp :=
  { compiled := some (Regex.anchored (Regex.lit "true".data)), original := "true" }

/-- Result of `config.NewRegexp("(.+)")` in `init`. -/
def allMatchPattern : Regexp :=
  { compiled := some (Regex.anchored (Regex.group (Regex.plus Regex.dot))),
    original := "(.+)" }

/-- Result of `config.NewRegexp("([^:]+)(?::\\d+)?;(\\d+)")` in `init`. -/
def portPattern : Regexp :=
  { compiled := some (Regex.anchored
      (Regex.cat (Regex.group (Regex.plus (Regex.cls true [(':', ':')])))
        (Regex.cat (Regex.opt (Regex.cat (Regex.char ':') (Regex.plus Regex.digit)))
          (Regex.cat (Regex.char ';') (Regex.group (Regex.plus Regex.digit)))))),
    original := "([^:]+)(?::\\d+)?;(\\d+)" }

/-- Result of `config.NewRegexp(".*\\-tikv\\-\\d*$")` in `init`: the text
`.*\-tikv\-\d*$` between `^(?:` and `)$`. -/
def tikvPattern : Regexp :=
  { compiled := some (Regex.anchored
      (Regex.cat (Regex.star Regex.dot)
        (Regex.cat (Regex.lit "-tikv-".data)
          (Regex.cat (Regex.star Regex.digit) Regex.endText)))),
    original := ".*\\-tikv\\-\\d*$" }

/-! ## The configuration document

Only the fields of the Prometheus structures that the template sets, or that
the properties below read, are kept; every other field keeps its zero value
throughout. -/

/-- A Go `map[string]interface{}` or `model.LabelSet`, as an association list. -/
abbrev GoMap := List (String × String)

/-- Map assignment `m[k] = v` on a non-nil map. -/
def GoMap.set : GoMap → String → String → GoMap
  | [], k, v => [(k, v)]
  | (k', v') :: rest, k, v =>
    if k' = k then (k, v) :: rest else (k', v') :: GoMap.set rest k v

structure TLSConfig where
  CAFile : String := ""
  CertFile : String := ""
  KeyFile : String := ""
  ServerName : String := ""
  InsecureSkipVerify : Bool := false
deriving DecidableEq, Repr

/-- Prometheus `config.HTTPClientConfig`; `XXX = none` is the nil map. -/
structure HTTPClientConfig where
  TLSConfig : TLSConfig := {}
  XXX : Option GoMap := none
deriving DecidableEq, Repr

structure KubernetesNamespaceDiscovery where
  Names : List String := []
deriving DecidableEq, Repr

structure KubernetesSDConfig where
  Role : String := ""
  NamespaceDiscovery : KubernetesNamespaceDiscovery := {}
deriving DecidableEq, Repr

structure TargetGroup where
  Targets : List GoMap := []
deriving DecidableEq, Repr

structure ServiceDiscoveryConfig where
  StaticConfigs : List TargetGroup := []
  KubernetesSDConfigs : List KubernetesSDConfig := []
deriving DecidableEq, Repr

structure RelabelConfig where
  SourceLabels : List String := []
  Regex : Regexp := {}
  TargetLabel : String := ""
  Replacement : String := ""
  Action : String := ""
deriving DecidableEq, Repr

structure ScrapeConfig where
  JobName : String := ""
  HonorLabels : Bool := false
  ScrapeInterval : Int := 0
  ServiceDiscoveryConfig : ServiceDiscoveryConfig := {}
  HTTPClientConfig : HTTPClientConfig := {}
  RelabelConfigs : List RelabelConfig := []
deriving DecidableEq, Repr

structure AlertmanagerConfig where
  ServiceDiscoveryConfig : ServiceDiscoveryConfig := {}
deriving DecidableEq, Repr

structure AlertingConfig where
  AlertRelabelConfigs : List RelabelConfig := []
  AlertmanagerConfigs : List AlertmanagerConfig := []
  XXX : Option GoMap := none
deriving DecidableEq, Repr

structure GlobalConfig where
  ScrapeInterval : Int := 0
  EvaluationInterval : Int := 0
deriving DecidableEq, Repr

structure Config where
  GlobalConfig : GlobalConfig := {}
  AlertingConfig : AlertingConfig := {}
  RuleFiles : List String := []
  ScrapeConfigs : List ScrapeConfig := []
deriving DecidableEq, Repr

/-- The parameter record; `ReleaseTargetRegex` is a pointer, `none` is nil. -/
structure MonitorConfigModel where
  AlertmanagerURL : String
  ReleaseNamespaces : List String
  ReleaseTargetRegex : Option Regexp
  EnableTLSCluster : Bool
deriving DecidableEq, Repr

/-- The run-time panics the template code can raise. -/
inductive Panic where
  | nilDereference
  | nilMapAssignment
deriving DecidableEq, Repr

/-! ## The template -/

def newPrometheusConfig (cmodel : MonitorConfigModel) : Except Panic Config :=
  match cmodel.ReleaseTargetRegex with
  | none => .error .nilDereference
  | some releaseTargetRegex =>
    .ok {
      AlertingConfig := {
        AlertRelabelConfigs := []
        AlertmanagerConfigs := []
        XXX := none }
      GlobalConfig := {
        ScrapeInterval := fifteenSeconds
        EvaluationInterval := fifteenSeconds }
      RuleFiles := ["/prometheus-rules/rules/*.rules.yml"]
      ScrapeConfigs := [
        { JobName := "tidb-cluster"
          ScrapeInterval := fifteenSeconds
          HonorLabels := true
          ServiceDiscoveryConfig := {
            KubernetesSDConfigs := [
              { Role := "pod"
                NamespaceDiscovery := { Names := cmodel.ReleaseNamespaces } } ] }
          HTTPClientConfig := {
            TLSConfig := { InsecureSkipVerify := true }
            XXX := some [("scheme", "http")] }
          RelabelConfigs := [
            { SourceLabels := [instanceLabel]
              Action := RelabelKeep
              Regex := releaseTargetRegex },
            { SourceLabels := [scrapeLabel]
              Action := RelabelKeep
              Regex := truePattern },
            { SourceLabels := [metricsPathLabel]
              Action := RelabelReplace
              TargetLabel := "__metrics_path__"
              Regex := allMatchPattern },
            { SourceLabels := [namespaceLabel]
              Action := RelabelReplace
              TargetLabel := "kubernetes_namespace" },
            { SourceLabels := [podNameLabel]
              Action := RelabelReplace
              TargetLabel := "instance" },
            { SourceLabels := [instanceLabel]
              Action := RelabelReplace
              TargetLabel := "cluster" } ] } ] }

def addAlertManagerUrl (pc : Config) (cmodel : MonitorConfigModel) : Config :=
  { pc with
    AlertingConfig := {
      AlertmanagerConfigs := [
        { ServiceDiscoveryConfig := {
            StaticConfigs := [
              { Targets := [ [("targets", cmodel.AlertmanagerURL)] ] } ] } } ] } }

/-- The body of the `if sconfig.JobName == "tidb-cluster"` branch in the loop
of `addTlsConfig`, applied to the job the loop variable points to. -/
def addTlsConfig.updateJob (sconfig : ScrapeConfig) : Except Panic ScrapeConfig :=
  let sconfig1 : ScrapeConfig :=
    { sconfig with
      HTTPClientConfig := { sconfig.HTTPClientConfig with
        TLSConfig := {
          CAFile := caFilePath
          CertFile := certFilePath
          KeyFile := keyFilePath } } }
  let sconfig2 : ScrapeConfig :=
    { sconfig1 with
      RelabelConfigs := sconfig1.RelabelConfigs ++ [
        { SourceLabels := ["__meta_kubernetes_pod_name"]
          Action := "drop"
          Regex := tikvPattern } ] }
  match sconfig2.HTTPClientConfig.XXX with
  | none => .error .nilMapAssignment
  | some xxx =>
    .ok { sconfig2 with
      HTTPClientConfig := { sconfig2.HTTPClientConfig with
        XXX := some (xxx.set "scheme" "https") } }

/-- The loop `for id, sconfig := range pc.ScrapeConfigs` of `addTlsConfig`,
started at index `id`. Besides the updated job list it reports the index at
which the branch was taken and the loop left by `break`, if any. -/
def addTlsConfig.loop : Nat → List ScrapeConfig → Except Panic (Option Nat × List ScrapeConfig)
  | _, [] => .ok (none, [])
  | id, sconfig :: rest =>
    if sconfig.JobName = "tidb-cluster" then
      match addTlsConfig.updateJob sconfig with
      | .error e => .error e
      | .ok sconfig' => .ok (some id, sconfig' :: rest)
    else
      match addTlsConfig.loop (id + 1) rest with
      | .error e => .error e
      | .ok (found, rest') => .ok (found, sconfig :: rest')

def addTlsConfig (pc : Config) (cmodel : MonitorConfigModel) : Except Panic Config :=
  match addTlsConfig.loop 0 pc.ScrapeConfigs with
  | .error e => .error e
  | .ok (_, scrapeConfigs) =>
    match cmodel.ReleaseTargetRegex with
    | none => .error .nilDereference
    | some releaseTargetRegex =>
      .ok { pc with
        ScrapeConfigs := scrapeConfigs ++ [
          { JobName := "tidb-cluster-tikv"
            ScrapeInterval := fifteenSeconds
            HonorLabels := true
            ServiceDiscoveryConfig := {
              KubernetesSDConfigs := [
                { Role := "pod"
                  NamespaceDiscovery := { Names := cmodel.ReleaseNamespaces } } ] }
            HTTPClientConfig := {
              TLSConfig := { InsecureSkipVerify := true }
              XXX := some [("scheme", "http")] }
            RelabelConfigs := [
              { SourceLabels := [instanceLabel]
                Action := RelabelKeep
                Regex := releaseTargetRegex },
              { SourceLabels := [scrapeLabel]
                Action := RelabelKeep
                Regex := truePattern },
              { SourceLabels := [metricsPathLabel]
                Action := RelabelReplace
                TargetLabel := "__metrics_path__"
                Regex := allMatchPattern },
              { SourceLabels := ["__address__", "__meta_kubernetes_pod_annotation_prometheus_io_port"]
                Action := RelabelReplace
                Regex := portPattern
                Replacement := "$1:$2"
                TargetLabel := "__address__" },
              { SourceLabels := [namespaceLabel]
                Action := RelabelReplace
                TargetLabel := "kubernetes_namespace" },
              { SourceLabels := [nodeNameLabel]
                Action := RelabelReplace
                TargetLabel := "kubernetes_node" },
              { SourceLabels := [podIPLabel]
                Action := RelabelReplace
                TargetLabel := "kubernetes_pod_ip" } ] } ] }

/-- The first part of `RenderPrometheusConfig`, up to the call of
`yaml.Marshal`: the document `pc` that is handed to the serializer. -/
def RenderPrometheusConfig.document (model : MonitorConfigModel) : Except Panic Config :=
  match newPrometheusConfig model with
  | .error e => .error e
  | .ok pc =>
    match (if model.EnableTLSCluster then addTlsConfig pc model else .ok pc) with
    | .error e => .error e
    | .ok pc =>
      .ok (if model.AlertmanagerURL.utf8ByteSize > 0 then addAlertManagerUrl pc model else pc)

/-- The renderer. `marshal` stands for `yaml.Marshal`: it returns the bytes
(here already as the string `string(bs)`) and the error, `none` being nil. -/
def RenderPrometheusConfig {ε : Type} (marshal : Config → String × Option ε)
    (model : MonitorConfigModel) : Except Panic (String × Option ε) :=
  match RenderPrometheusConfig.document model with
  | .error e => .error e
  | .ok pc =>
    match marshal pc with
    | (_, some err) => .ok ("", some err)
    | (bs, none) => .ok (bs, none)

/-- The advertised scheme of a job: the entry `"scheme"` of its extension map. -/
def ScrapeConfig.scheme (s : ScrapeConfig) : Option String :=
  s.HTTPClientConfig.XXX.bind fun xxx => xxx.lookup "scheme"

/-- Prometheus `model.AddressLabel`, the label that carries the address of a
target; the template itself writes it as `"__address__"` in the address rule
of the job "tidb-cluster-tikv". -/
def AddressLabel : String := "__address__"

/-- The addresses Prometheus reads from a target group, as its
`TargetGroup.MarshalYAML` writes them under `targets`: for each target `t` the
value `string(t[model.AddressLabel])`, the empty string when the label is
absent. -/
def TargetGroup.addresses (tg : TargetGroup) : List String :=
  tg.Targets.map fun t => (t.lookup AddressLabel).getD ""

/-- The pattern `myapp.*` of the end-to-end examples of the specification, as
`config.NewRegexp` returns it. -/
def examplePattern : Regexp :=
  { compiled := some (Regex.anchored (Regex.cat (Regex.lit "myapp".data) (Regex.star Regex.dot))),
    original := "myapp.*" }

/-- First end-to-end example of the specification. -/
def exampleModelPlain : MonitorConfigModel :=
  { AlertmanagerURL := "", ReleaseNamespaces := ["ns1"],
    ReleaseTargetRegex := some examplePattern, EnableTLSCluster := false }

/-- Second end-to-end example of the specification. -/
def exampleModelTLS : MonitorConfigModel :=
  { AlertmanagerURL := "alertmgr:9093", ReleaseNamespaces := ["ns1", "ns2"],
    ReleaseTargetRegex := some examplePattern, EnableTLSCluster := true }

/-! ## Correctness of the matcher -/

namespace Regex

theorem nullable_iff (r : Regex) (st en : Bool) :
    nullable st en r = true ↔ Matches r st [] en := by
  induction r generalizing st en with
  | fail => simp [nullable, Matches]
  | empty => simp [nullable, Matches]
  | cls n rs => simp [nullable, Matches]
  | beginText => simp [nullable, Matches]
  | endText => simp [nullable, Matches]
  | cat a b iha ihb =>
    simp only [nullable, Matches, Bool.and_eq_true, iha, ihb]
    constructor
    · rintro ⟨h1, h2⟩
      exact ⟨[], [], rfl, by simpa using h1, by simpa using h2⟩
    · rintro ⟨s1, s2, h, h1, h2⟩
      have h' := h.symm
      rw [List.append_eq_nil] at h'
      obtain ⟨rfl, rfl⟩ := h'
      exact ⟨by simpa using h1, by simpa using h2⟩
  | alt a b iha ihb => simp [nullable, Matches, iha, ihb]
  | star a _ => simp [nullable, Matches]; exact StarMatches.nil _
  | group a iha => simp [nullable, Matches, iha]

theorem deriv_iff (r : Regex) (st en : Bool) (c : Char) (s : List Char) :
    Matches (deriv st c r) false s en ↔ Matches r st (c :: s) en := by
  induction r generalizing st en s with
  | fail => simp [deriv, Matches]
  | empty => simp [deriv, Matches]
  | cls n rs =>
    simp only [deriv, Matches]
    by_cases h : inClass n rs c = true
    · rw [if_pos h]
      simp only [Matches]
      constructor
      · rintro rfl
        exact ⟨c, rfl, h⟩
      · rintro ⟨x, hx, _⟩
        simp only [List.cons.injEq] at hx
        exact hx.2
    · rw [if_neg h]
      simp only [Matches, false_iff]
      rintro ⟨x, hx, hc⟩
      simp only [List.cons.injEq] at hx
      obtain ⟨rfl, _⟩ := hx
      exact h hc
  | beginText => simp [deriv, Matches]
  | endText => simp [deriv, Matches]
  | cat a b iha ihb =>
    simp only [deriv, Matches]
    constructor
    · rintro (⟨s1, s2, rfl, h1, h2⟩ | h)
      · refine ⟨c :: s1, s2, rfl, (iha _ _ _).1 h1, ?_⟩
        simpa using h2
      · by_cases hn : nullable st false a = true
        · rw [if_pos hn] at h
          refine ⟨[], c :: s, rfl, ?_, ?_⟩
          · simpa using (nullable_iff a st false).1 hn
          · simpa using (ihb _ _ _).1 h
        · rw [if_neg hn] at h
          exact absurd h (by simp [Matches])
    · rintro ⟨s1, s2, h, h1, h2⟩
      cases s1 with
      | nil =>
        simp only [List.nil_append] at h
        subst h
        right
        have hn : nullable st false a = true := (nullable_iff a st false).2 (by simpa using h1)
        rw [if_pos hn]
        exact (ihb _ _ _).2 (by simpa using h2)
      | cons d s1 =>
        simp only [List.cons_append, List.cons.injEq] at h
        obtain ⟨rfl, rfl⟩ := h
        left
        exact ⟨s1, s2, rfl, (iha _ _ _).2 h1, by simpa using h2⟩
  | alt a b iha ihb => simp [deriv, Matches, iha, ihb]
  | star a iha =>
    simp only [deriv, Matches]
    constructor
    · rintro ⟨s1, s2, rfl, h1, h2⟩
      exact StarMatches.cons st _ (c :: s1) s2 rfl (by simp) ((iha _ _ _).1 h1) (by simpa using h2)
    · intro h
      cases h with
      | cons _ _ s1 s2 h hne h1 h2 =>
        cases s1 with
        | nil => exact absurd rfl hne
        | cons d s1 =>
          simp only [List.cons_append, List.cons.injEq] at h
          obtain ⟨rfl, rfl⟩ := h
          exact ⟨s1, s2, rfl, (iha _ _ _).2 h1, by simpa using h2⟩
  | group a iha => simp [deriv, Matches, iha]

theorem matchHere_iff (s : List Char) (r : Regex) (st : Bool) :
    matchHere st r s = true ↔
      ∃ s1 s2, s = s1 ++ s2 ∧ Matches r st s1 s2.isEmpty := by
  induction s generalizing r st with
  | nil =>
    simp only [matchHere, nullable_iff]
    constructor
    · intro h
      exact ⟨[], [], rfl, by simpa using h⟩
    · rintro ⟨s1, s2, h, hm⟩
      have h' := h.symm
      rw [List.append_eq_nil] at h'
      obtain ⟨rfl, rfl⟩ := h'
      simpa using hm
  | cons c cs ih =>
    simp only [matchHere, Bool.or_eq_true, nullable_iff, ih]
    constructor
    · rintro (h | ⟨s1, s2, rfl, hm⟩)
      · exact ⟨[], c :: cs, rfl, by simpa using h⟩
      · exact ⟨c :: s1, s2, rfl, (deriv_iff _ _ _ _ _).1 hm⟩
    · rintro ⟨s1, s2, h, hm⟩
      cases s1 with
      | nil =>
        simp only [List.nil_append] at h
        subst h
        left
        simpa using hm
      | cons d s1 =>
        simp only [List.cons_append, List.cons.injEq] at h
        obtain ⟨rfl, rfl⟩ := h
        right
        exact ⟨s1, s2, rfl, (deriv_iff _ _ _ _ _).2 hm⟩

theorem search_iff (s : List Char) (r : Regex) (st : Bool) :
    search st r s = true ↔
      ∃ s0 s1 s2, s = s0 ++ (s1 ++ s2) ∧ Matches r (st && s0.isEmpty) s1 s2.isEmpty := by
  induction s generalizing st with
  | nil =>
    simp only [search, nullable_iff]
    constructor
    · intro h
      exact ⟨[], [], [], rfl, by simpa using h⟩
    · rintro ⟨s0, s1, s2, h, hm⟩
      have h' := h.symm
      simp only [List.append_eq_nil] at h'
      obtain ⟨rfl, rfl, rfl⟩ := h'
      simpa using hm
  | cons c cs ih =>
    simp only [search, Bool.or_eq_true, matchHere_iff, ih]
    constructor
    · rintro (⟨s1, s2, h, hm⟩ | ⟨s0, s1, s2, rfl, hm⟩)
      · exact ⟨[], s1, s2, h, by simpa using hm⟩
      · exact ⟨c :: s0, s1, s2, rfl, by simpa using hm⟩
    · rintro ⟨s0, s1, s2, h, hm⟩
      cases s0 with
      | nil =>
        left
        exact ⟨s1, s2, by simpa using h, by simpa using hm⟩
      | cons d s0 =>
        simp only [List.cons_append, List.cons.injEq] at h
        obtain ⟨rfl, rfl⟩ := h
        right
        exact ⟨s0, s1, s2, rfl, by simpa using hm⟩

theorem search_anchored_iff (r : Regex) (s : List Char) :
    search true (anchored r) s = true ↔ Matches r true s true := by
  rw [search_iff]
  simp only [anchored, Matches]
  constructor
  · rintro ⟨s0, s1, s2, rfl, a, b, rfl, ⟨rfl, hst⟩, c, d, rfl, hr, rfl, hen⟩
    simp only [Bool.and_eq_true, List.isEmpty_iff, Bool.true_and] at hst hen
    obtain rfl := hst
    obtain rfl := hen
    simpa using hr
  · intro h
    exact ⟨[], s, [], by simp, [], s, by simp, by simp, s, [], by simp, by simpa using h, by simp⟩

theorem star_cls_iff (n : Bool) (rs : List (Char × Char)) (st en : Bool) (s : List Char) :
    Matches (star (cls n rs)) st s en ↔ ∀ c ∈ s, inClass n rs c = true := by
  simp only [Matches]
  constructor
  · intro h
    induction h with
    | nil _ => simp
    | cons _ _ s1 s2 h _ h1 _ ih =>
      obtain ⟨x, rfl, hx⟩ := h1
      subst h
      intro c hc
      simp only [List.singleton_append, List.mem_cons] at hc
      rcases hc with rfl | hc
      · exact hx
      · exact ih c hc
  · intro h
    induction s generalizing st with
    | nil => exact StarMatches.nil _
    | cons c cs ih =>
      refine StarMatches.cons st _ [c] cs rfl (by simp) ⟨c, rfl, h c (by simp)⟩ ?_
      exact ih false fun d hd => h d (List.mem_cons_of_mem _ hd)

theorem lit_iff (l : List Char) (st en : Bool) (s : List Char) :
    Matches (lit l) st s en ↔ s = l := by
  induction l generalizing st en s with
  | nil => simp [lit, Matches]
  | cons c cs ih =>
    simp only [lit, char, Matches, ih]
    constructor
    · rintro ⟨s1, s2, rfl, ⟨x, rfl, hx⟩, rfl⟩
      simp only [inClass, List.any_cons, List.any_nil, Bool.or_false, Bool.false_bne,
        Bool.and_eq_true, decide_eq_true_eq] at hx
      have : x = c := le_antisymm hx.2 hx.1
      simp [this]
    · rintro rfl
      exact ⟨[c], cs, rfl, ⟨c, rfl, by simp [inClass]⟩, rfl⟩

theorem inClass_dot (c : Char) :
    inClass true [(Char.ofNat 10, Char.ofNat 10)] c = true ↔ c ≠ Char.ofNat 10 := by
  simp only [inClass, List.any_cons, List.any_nil, Bool.or_false]
  constructor
  · rintro h rfl
    simp at h
  · intro h
    have hb : (decide (Char.ofNat 10 ≤ c) && decide (c ≤ Char.ofNat 10)) = false := by
      apply Bool.eq_false_iff.2
      intro hh
      simp only [Bool.and_eq_true, decide_eq_true_eq] at hh
      exact h (le_antisymm hh.2 hh.1)
    rw [hb]
    rfl

theorem inClass_digit (c : Char) : inClass false [('0', '9')] c = c.isDigit := by
  simp [inClass, Char.isDigit, Char.le_def, UInt32.le_def]

theorem matches_cat (a b : Regex) (st en : Bool) (s : List Char) :
    Matches (cat a b) st s en ↔ ∃ s1 s2, s = s1 ++ s2 ∧
      Matches a st s1 (en && s2.isEmpty) ∧ Matches b (st && s1.isEmpty) s2 en :=
  Iff.rfl

theorem tikv_inner_iff (s : List Char) :
    Matches (cat (star dot) (cat (lit "-tikv-".data) (cat (star digit) endText))) true s true ↔
      ∃ p d : List Char, s = p ++ "-tikv-".data ++ d ∧
        (∀ c ∈ p, c ≠ Char.ofNat 10) ∧ ∀ c ∈ d, c.isDigit = true := by
  simp only [matches_cat, lit_iff, dot, digit, star_cls_iff, inClass_dot, inClass_digit]
  constructor
  · rintro ⟨p, s2, rfl, hp, l, s3, rfl, rfl, d, e, rfl, hd, rfl, _⟩
    exact ⟨p, d, by simp, hp, hd⟩
  · rintro ⟨p, d, rfl, hp, hd⟩
    refine ⟨p, "-tikv-".data ++ d, by simp, hp, "-tikv-".data, d, rfl, rfl, d, [], by simp, hd, ?_⟩
    simp [Matches]

end Regex

/-! ## The fixed patterns -/

/-- The strings matched by `tikvPattern`. -/
theorem tikvPattern_iff (s : String) :
    tikvPattern.MatchString s = some true ↔
      ∃ p d : List Char, s.data = p ++ "-tikv-".data ++ d ∧
        (∀ c ∈ p, c ≠ Char.ofNat 10) ∧ ∀ c ∈ d, c.isDigit = true := by
  rw [← Regex.tikv_inner_iff, ← Regex.search_anchored_iff]
  simp [Regexp.MatchString, tikvPattern, Regex.MatchString]

/-- Go `len(s) > 0` holds exactly for the non-empty strings. -/
theorem utf8ByteSize_pos_iff (s : String) : s.utf8ByteSize > 0 ↔ s ≠ "" := by
  obtain ⟨l⟩ := s
  cases l with
  | nil => simp [String.utf8ByteSize, String.utf8ByteSize.go]
  | cons c cs =>
    have h1 : (String.mk (c :: cs)) ≠ "" := by
      intro h
      have := congrArg String.data h
      simp at this
    have h2 : 0 < c.utf8Size := Char.utf8Size_pos c
    simp only [String.utf8ByteSize, String.utf8ByteSize.go, gt_iff_lt, ne_eq, h1,
      not_false_eq_true, iff_true]
    omega

/-- C1: for every parameter record with a pattern present the document handed
to the serializer by `RenderPrometheusConfig` exists, and it has exactly one
scrape job, named "tidb-cluster" with scheme "http", when `EnableTLSCluster`
is false, and exactly two when it is true: first "tidb-cluster" with scheme
"https", then "tidb-cluster-tikv" with scheme "http". The job
"tidb-cluster-tikv" is present iff the flag is set. -/
theorem C1_scrape_jobs_by_tls_flag (m : MonitorConfigModel) (P : Regexp)
    (h : m.ReleaseTargetRegex = some P) :
    ∃ pc, RenderPrometheusConfig.document m = .ok pc ∧
      (m.EnableTLSCluster = false →
        pc.ScrapeConfigs.length = 1 ∧
        pc.ScrapeConfigs.map (fun j => (j.JobName, j.scheme)) =
          [("tidb-cluster", some "http")]) ∧
      (m.EnableTLSCluster = true →
        pc.ScrapeConfigs.length = 2 ∧
        pc.ScrapeConfigs.map (fun j => (j.JobName, j.scheme)) =
          [("tidb-cluster", some "https"), ("tidb-cluster-tikv", some "http")]) ∧
      ((∃ j ∈ pc.ScrapeConfigs, j.JobName = "tidb-cluster-tikv") ↔
        m.EnableTLSCluster = true) := by
  obtain ⟨url, ns, re, tls⟩ := m
  simp only at h
  subst h
  cases tls
  · refine ⟨_, rfl, ?_, ?_, ?_⟩
    · intro _
      split <;> exact ⟨rfl, rfl⟩
    · intro h; cases h
    · split <;> simp [addAlertManagerUrl]
  · refine ⟨_, rfl, ?_, ?_, ?_⟩
    · intro h; cases h
    · intro _
      split <;> exact ⟨rfl, rfl⟩
    · split <;> simp [addAlertManagerUrl]

/-- Witness of C1 at the second end-to-end example of the specification. -/
theorem C1_scrape_jobs_by_tls_flag_witness :
    exampleModelTLS.ReleaseTargetRegex = some examplePattern ∧
    ∃ pc, RenderPrometheusConfig.document exampleModelTLS = .ok pc ∧
      pc.ScrapeConfigs.length = 2 := by
  refine ⟨rfl, ?_⟩
  obtain ⟨pc, h1, _, h2, _⟩ := C1_scrape_jobs_by_tls_flag exampleModelTLS examplePattern rfl
  exact ⟨pc, h1, (h2 rfl).1⟩

/-- The alerting configuration of the built document, for every parameter
record with a pattern present. For a non-empty `AlertmanagerURL` A it is
exactly one alertmanager entry with exactly one static target group with
exactly one target and nothing else (no alert relabel rule); that target is
the label set with the single label `targets = A`, so the address of the
target is empty. For the empty address it is the zero value. -/
theorem document_alerting (m : MonitorConfigModel) (P : Regexp)
    (h : m.ReleaseTargetRegex = some P) :
    ∃ pc, RenderPrometheusConfig.document m = .ok pc ∧
      (m.AlertmanagerURL ≠ "" →
        pc.AlertingConfig =
          { AlertRelabelConfigs := []
            AlertmanagerConfigs :=
              [{ ServiceDiscoveryConfig :=
                  { StaticConfigs := [{ Targets := [[("targets", m.AlertmanagerURL)]] }]
                    KubernetesSDConfigs := [] } }]
            XXX := none } ∧
        pc.AlertingConfig.AlertmanagerConfigs.map
            (fun a => a.ServiceDiscoveryConfig.StaticConfigs.map TargetGroup.addresses) =
          [[[""]]]) ∧
      (m.AlertmanagerURL = "" →
        pc.AlertingConfig.AlertmanagerConfigs = [] ∧
        pc.AlertingConfig.AlertRelabelConfigs = [] ∧
        pc.AlertingConfig = {}) ∧
      (pc.AlertingConfig ≠ {} ↔ m.AlertmanagerURL ≠ "") := by
  obtain ⟨url, ns, re, tls⟩ := m
  simp only at h
  subst h
  by_cases hu : url = ""
  · have hz : ¬ url.utf8ByteSize > 0 := fun hh => (utf8ByteSize_pos_iff url).1 hh hu
    cases tls
    · refine ⟨_, rfl, ?_, ?_, ?_⟩
      · intro hne; exact absurd hu hne
      · intro _; rw [if_neg hz]; exact ⟨rfl, rfl, rfl⟩
      · rw [if_neg hz]; simp [hu]
    · refine ⟨_, rfl, ?_, ?_, ?_⟩
      · intro hne; exact absurd hu hne
      · intro _; rw [if_neg hz]; exact ⟨rfl, rfl, rfl⟩
      · rw [if_neg hz]; simp [hu]
  · have hz : url.utf8ByteSize > 0 := (utf8ByteSize_pos_iff url).2 hu
    cases tls
    · refine ⟨_, rfl, ?_, ?_, ?_⟩
      · intro _; rw [if_pos hz]; exact ⟨rfl, rfl⟩
      · intro he; exact absurd he hu
      · rw [if_pos hz]; simp [hu, addAlertManagerUrl]
    · refine ⟨_, rfl, ?_, ?_, ?_⟩
      · intro _; rw [if_pos hz]; exact ⟨rfl, rfl⟩
      · intro he; exact absurd he hu
      · rw [if_pos hz]; simp [hu, addAlertManagerUrl]

/-- C2, at the failing input (the second end-to-end example of the
specification, alert address "alertmgr:9093"): the built document has exactly
one alertmanager entry with exactly one static target group with exactly one
target, and no alert relabel rule, as the claim says; but the target is the
label set `targets = "alertmgr:9093"`, which has no address label, so the
address of the only target is the empty string and not the alert address. -/
theorem C2_alert_target_without_address :
    ∃ pc, RenderPrometheusConfig.document exampleModelTLS = .ok pc ∧
      pc.AlertingConfig =
        { AlertRelabelConfigs := []
          AlertmanagerConfigs :=
            [{ ServiceDiscoveryConfig :=
                { StaticConfigs := [{ Targets := [[("targets", "alertmgr:9093")]] }]
                  KubernetesSDConfigs := [] } }]
          XXX := none } ∧
      (∀ a ∈ pc.AlertingConfig.AlertmanagerConfigs,
        ∀ g ∈ a.ServiceDiscoveryConfig.StaticConfigs,
          ∀ t ∈ g.Targets, t.lookup AddressLabel = none) ∧
      pc.AlertingConfig.AlertmanagerConfigs.map
          (fun a => a.ServiceDiscoveryConfig.StaticConfigs.map TargetGroup.addresses) =
        [[[""]]] ∧
      pc.AlertingConfig.AlertmanagerConfigs.map
          (fun a => a.ServiceDiscoveryConfig.StaticConfigs.map TargetGroup.addresses) ≠
        [[[exampleModelTLS.AlertmanagerURL]]] := by
  refine ⟨_, rfl, by decide, by decide, by decide, by decide⟩

/-- C3: for every alert address, namespace list, pattern `P` and TLS flag the
first job of the built document is "tidb-cluster" and its relabel list begins
with the same six rules in the same order (keep on the instance label with
`P`, keep on the scrape annotation with "true", replace of the metrics path
into "__metrics_path__" with "(.+)", replace of the namespace into
"kubernetes_namespace", of the pod name into "instance", of the instance label
into "cluster"). With TLS off the list is exactly these six, with TLS on
exactly these six followed by one drop rule; the first rule has pattern `P`. -/
theorem C3_primary_relabel_order (m : MonitorConfigModel) (P : Regexp)
    (h : m.ReleaseTargetRegex = some P) :
    ∃ pc, RenderPrometheusConfig.document m = .ok pc ∧
    ∃ job rest, pc.ScrapeConfigs = job :: rest ∧ job.JobName = "tidb-cluster" ∧
    ∀ six : List RelabelConfig,
      six = [
        { SourceLabels := [instanceLabel], Action := "keep", Regex := P },
        { SourceLabels := [scrapeLabel], Action := "keep", Regex := truePattern },
        { SourceLabels := [metricsPathLabel], Action := "replace",
          TargetLabel := "__metrics_path__", Regex := allMatchPattern },
        { SourceLabels := [namespaceLabel], Action := "replace",
          TargetLabel := "kubernetes_namespace" },
        { SourceLabels := [podNameLabel], Action := "replace", TargetLabel := "instance" },
        { SourceLabels := [instanceLabel], Action := "replace", TargetLabel := "cluster" }] →
      truePattern.original = "true" ∧ allMatchPattern.original = "(.+)" ∧
      job.RelabelConfigs.take 6 = six ∧
      (m.EnableTLSCluster = false → job.RelabelConfigs = six) ∧
      (m.EnableTLSCluster = true →
        ∃ r : RelabelConfig, r.Action = "drop" ∧ job.RelabelConfigs = six ++ [r]) ∧
      job.RelabelConfigs.head?.map (fun r => r.Regex) = some P := by
  obtain ⟨url, ns, re, tls⟩ := m
  simp only at h
  subst h
  cases tls
  · refine ⟨_, rfl, ?_⟩
    split
    · refine ⟨_, _, rfl, rfl, ?_⟩
      rintro six rfl
      exact ⟨rfl, rfl, rfl, fun _ => rfl, fun hh => (by cases hh), rfl⟩
    · refine ⟨_, _, rfl, rfl, ?_⟩
      rintro six rfl
      exact ⟨rfl, rfl, rfl, fun _ => rfl, fun hh => (by cases hh), rfl⟩
  · refine ⟨_, rfl, ?_⟩
    split
    · refine ⟨_, _, rfl, rfl, ?_⟩
      rintro six rfl
      exact ⟨rfl, rfl, rfl, fun hh => (by cases hh), fun _ => ⟨_, rfl, rfl⟩, rfl⟩
    · refine ⟨_, _, rfl, rfl, ?_⟩
      rintro six rfl
      exact ⟨rfl, rfl, rfl, fun hh => (by cases hh), fun _ => ⟨_, rfl, rfl⟩, rfl⟩

/-- Witness of C3 at the second end-to-end example of the specification. -/
theorem C3_primary_relabel_order_witness :
    exampleModelTLS.ReleaseTargetRegex = some examplePattern ∧
    ∃ pc, RenderPrometheusConfig.document exampleModelTLS = .ok pc ∧
      pc.ScrapeConfigs.head?.map (fun j => j.RelabelConfigs.map fun r => r.Action) =
        some ["keep", "keep", "replace", "replace", "replace", "replace", "drop"] := by
  refine ⟨rfl, ?_⟩
  obtain ⟨pc, h1, _⟩ := C3_primary_relabel_order exampleModelTLS examplePattern rfl
  exact ⟨pc, h1, by cases h1; rfl⟩

/-- C4: for every namespace list `N` (the empty one included) and every value
of the other parameters, the primary job of the built document has exactly one
discovery entry, of role "pod", whose namespace list is `N` itself, order and
duplicates kept; with TLS enabled the job "tidb-cluster-tikv" has the same. -/
theorem C4_namespace_discovery (m : MonitorConfigModel) (P : Regexp)
    (h : m.ReleaseTargetRegex = some P) :
    ∃ pc, RenderPrometheusConfig.document m = .ok pc ∧
    ∃ job rest, pc.ScrapeConfigs = job :: rest ∧ job.JobName = "tidb-cluster" ∧
      job.ServiceDiscoveryConfig.KubernetesSDConfigs =
        [{ Role := "pod", NamespaceDiscovery := { Names := m.ReleaseNamespaces } }] ∧
      (m.EnableTLSCluster = true →
        ∃ tikv, rest = [tikv] ∧ tikv.JobName = "tidb-cluster-tikv" ∧
          tikv.ServiceDiscoveryConfig.KubernetesSDConfigs =
            [{ Role := "pod", NamespaceDiscovery := { Names := m.ReleaseNamespaces } }]) := by
  obtain ⟨url, ns, re, tls⟩ := m
  simp only at h
  subst h
  cases tls
  · refine ⟨_, rfl, ?_⟩
    split
    · exact ⟨_, _, rfl, rfl, rfl, fun hh => (by cases hh)⟩
    · exact ⟨_, _, rfl, rfl, rfl, fun hh => (by cases hh)⟩
  · refine ⟨_, rfl, ?_⟩
    split
    · exact ⟨_, _, rfl, rfl, rfl, fun _ => ⟨_, rfl, rfl, rfl⟩⟩
    · exact ⟨_, _, rfl, rfl, rfl, fun _ => ⟨_, rfl, rfl, rfl⟩⟩

/-- Witness of C4 at the second end-to-end example of the specification. -/
theorem C4_namespace_discovery_witness :
    exampleModelTLS.ReleaseTargetRegex = some examplePattern ∧
    ∃ pc, RenderPrometheusConfig.document exampleModelTLS = .ok pc ∧
      pc.ScrapeConfigs.map (fun j => j.ServiceDiscoveryConfig.KubernetesSDConfigs.map
        fun d => d.NamespaceDiscovery.Names) = [[["ns1", "ns2"]], [["ns1", "ns2"]]] := by
  refine ⟨rfl, ?_⟩
  obtain ⟨pc, h1, job, rest, h2, _, h3, h4⟩ :=
    C4_namespace_discovery exampleModelTLS examplePattern rfl
  obtain ⟨tikv, h5, _, h6⟩ := h4 rfl
  refine ⟨pc, h1, ?_⟩
  rw [h2, h5]
  simp [h3, h6, exampleModelTLS]

/-- C6: with `EnableTLSCluster` true the TLS descriptor of the primary job
holds exactly the three fixed file paths, insecure-skip-verify is no longer
set and the scheme is "https"; with the flag false insecure-skip-verify is
set, there is no file path and the scheme is "http". -/
theorem C6_primary_transport (m : MonitorConfigModel) (P : Regexp)
    (h : m.ReleaseTargetRegex = some P) :
    ∃ pc, RenderPrometheusConfig.document m = .ok pc ∧
    ∃ job rest, pc.ScrapeConfigs = job :: rest ∧ job.JobName = "tidb-cluster" ∧
      (m.EnableTLSCluster = true →
        job.HTTPClientConfig.TLSConfig =
          { CAFile := "/var/run/secrets/kubernetes.io/serviceaccount/ca.crt",
            CertFile := "/var/lib/pd-client-tls/cert",
            KeyFile := "/var/lib/pd-client-tls/key",
            ServerName := "",
            InsecureSkipVerify := false } ∧
        job.scheme = some "https") ∧
      (m.EnableTLSCluster = false →
        job.HTTPClientConfig.TLSConfig =
          { CAFile := "", CertFile := "", KeyFile := "", ServerName := "",
            InsecureSkipVerify := true } ∧
        job.scheme = some "http") := by
  obtain ⟨url, ns, re, tls⟩ := m
  simp only at h
  subst h
  cases tls
  · refine ⟨_, rfl, ?_⟩
    split
    · exact ⟨_, _, rfl, rfl, fun hh => (by cases hh), fun _ => ⟨rfl, rfl⟩⟩
    · exact ⟨_, _, rfl, rfl, fun hh => (by cases hh), fun _ => ⟨rfl, rfl⟩⟩
  · refine ⟨_, rfl, ?_⟩
    split
    · exact ⟨_, _, rfl, rfl, fun _ => ⟨rfl, rfl⟩, fun hh => (by cases hh)⟩
    · exact ⟨_, _, rfl, rfl, fun _ => ⟨rfl, rfl⟩, fun hh => (by cases hh)⟩

/-- Witness of C6 at the first end-to-end example of the specification. -/
theorem C6_primary_transport_witness :
    exampleModelPlain.ReleaseTargetRegex = some examplePattern ∧
    ∃ pc, RenderPrometheusConfig.document exampleModelPlain = .ok pc ∧
      pc.ScrapeConfigs.map (fun j => (j.HTTPClientConfig.TLSConfig.InsecureSkipVerify, j.scheme)) =
        [(true, some "http")] := by
  refine ⟨rfl, ?_⟩
  obtain ⟨pc, h1, job, rest, _, _, _, _⟩ :=
    C6_primary_transport exampleModelPlain examplePattern rfl
  exact ⟨pc, h1, by cases h1; rfl⟩

/-- C7: with `EnableTLSCluster` true the built document has a second job,
"tidb-cluster-tikv", with insecure transport (insecure-skip-verify set, no
certificate path, scheme "http") and exactly the seven relabel rules of the
template in their order; its first three rules are the first three rules of
the primary job. -/
theorem C7_tikv_job (m : MonitorConfigModel) (P : Regexp)
    (h : m.ReleaseTargetRegex = some P) (htls : m.EnableTLSCluster = true) :
    ∃ pc, RenderPrometheusConfig.document m = .ok pc ∧
    ∃ primary tikv, pc.ScrapeConfigs = [primary, tikv] ∧
      primary.JobName = "tidb-cluster" ∧ tikv.JobName = "tidb-cluster-tikv" ∧
      tikv.HTTPClientConfig.TLSConfig =
        { CAFile := "", CertFile := "", KeyFile := "", ServerName := "",
          InsecureSkipVerify := true } ∧
      tikv.scheme = some "http" ∧
      tikv.RelabelConfigs = [
        { SourceLabels := [instanceLabel], Action := "keep", Regex := P },
        { SourceLabels := [scrapeLabel], Action := "keep", Regex := truePattern },
        { SourceLabels := [metricsPathLabel], Action := "replace",
          TargetLabel := "__metrics_path__", Regex := allMatchPattern },
        { SourceLabels := ["__address__", "__meta_kubernetes_pod_annotation_prometheus_io_port"],
          Action := "replace", Regex := portPattern, Replacement := "$1:$2",
          TargetLabel := "__address__" },
        { SourceLabels := [namespaceLabel], Action := "replace",
          TargetLabel := "kubernetes_namespace" },
        { SourceLabels := [nodeNameLabel], Action := "replace",
          TargetLabel := "kubernetes_node" },
        { SourceLabels := [podIPLabel], Action := "replace",
          TargetLabel := "kubernetes_pod_ip" }] ∧
      tikv.RelabelConfigs.length = 7 ∧
      truePattern.original = "true" ∧ allMatchPattern.original = "(.+)" ∧
      portPattern.original = "([^:]+)(?::\\d+)?;(\\d+)" ∧
      tikv.RelabelConfigs.take 3 = primary.RelabelConfigs.take 3 := by
  obtain ⟨url, ns, re, tls⟩ := m
  simp only at h htls
  subst h htls
  refine ⟨_, rfl, ?_⟩
  split
  · exact ⟨_, _, rfl, rfl, rfl, rfl, rfl, rfl, rfl, rfl, rfl, rfl, rfl⟩
  · exact ⟨_, _, rfl, rfl, rfl, rfl, rfl, rfl, rfl, rfl, rfl, rfl, rfl⟩

/-- Witness of C7 at the second end-to-end example of the specification. -/
theorem C7_tikv_job_witness :
    exampleModelTLS.ReleaseTargetRegex = some examplePattern ∧
    exampleModelTLS.EnableTLSCluster = true ∧
    ∃ pc, RenderPrometheusConfig.document exampleModelTLS = .ok pc ∧
      pc.ScrapeConfigs.map (fun j => j.RelabelConfigs.length) = [7, 7] := by
  refine ⟨rfl, rfl, ?_⟩
  obtain ⟨pc, h1, _⟩ := C7_tikv_job exampleModelTLS examplePattern rfl rfl
  exact ⟨pc, h1, by cases h1; rfl⟩

/-- With a nil `ReleaseTargetRegex` the template panics before any document
exists. -/
theorem document_of_nil (m : MonitorConfigModel) (h : m.ReleaseTargetRegex = none) :
    RenderPrometheusConfig.document m = .error .nilDereference := by
  simp [RenderPrometheusConfig.document, newPrometheusConfig, h]

/-- With a pattern present the document is always built. -/
theorem document_total (m : MonitorConfigModel) (P : Regexp)
    (h : m.ReleaseTargetRegex = some P) :
    ∃ pc, RenderPrometheusConfig.document m = .ok pc := by
  obtain ⟨url, ns, re, tls⟩ := m
  simp only at h
  subst h
  cases tls <;> exact ⟨_, rfl⟩

/-- C8: for an arbitrary serializer `marshal` and every parameter record with
a pattern present, `RenderPrometheusConfig` returns; it returns an error iff
`marshal` returns one on the built document, and then it returns that error
with the empty string; otherwise it returns the text of `marshal` and no
error. -/
theorem C8_render_result {ε : Type} (marshal : Config → String × Option ε)
    (m : MonitorConfigModel) (P : Regexp) (h : m.ReleaseTargetRegex = some P) :
    ∃ pc out, RenderPrometheusConfig.document m = .ok pc ∧
      RenderPrometheusConfig marshal m = .ok out ∧
      (out.2.isSome = true ↔ (marshal pc).2.isSome = true) ∧
      (∀ err, (marshal pc).2 = some err → out = ("", some err)) ∧
      ((marshal pc).2 = none → out = ((marshal pc).1, none)) := by
  obtain ⟨pc, hpc⟩ := document_total m P h
  rcases hm : marshal pc with ⟨bs, _ | err⟩
  · refine ⟨pc, (bs, none), hpc, ?_, ?_, ?_, ?_⟩
    · simp [RenderPrometheusConfig, hpc, hm]
    · simp [hm]
    · intro err he
      rw [hm] at he
      cases he
    · intro _
      rw [hm]
  · refine ⟨pc, ("", some err), hpc, ?_, ?_, ?_, ?_⟩
    · simp [RenderPrometheusConfig, hpc, hm]
    · simp [hm]
    · intro e he
      rw [hm] at he
      simp only [Option.some.injEq] at he
      rw [he]
    · intro he
      rw [hm] at he
      cases he

/-- Witness of C8: a serializer that fails with partial output. -/
theorem C8_render_result_witness :
    exampleModelPlain.ReleaseTargetRegex = some examplePattern ∧
    (∃ pc, RenderPrometheusConfig.document exampleModelPlain = .ok pc ∧
      RenderPrometheusConfig (fun _ => ("partial", some 7)) exampleModelPlain =
        .ok ("", some 7)) := by
  refine ⟨rfl, ?_⟩
  obtain ⟨pc, out, h1, h2, _, h3, _⟩ :=
    C8_render_result (fun _ => ("partial", some 7)) exampleModelPlain examplePattern rfl
  refine ⟨pc, h1, ?_⟩
  rw [h2, h3 7 rfl]

/-- C9: for every parameter record with a pattern present,
`newPrometheusConfig` returns a document whose job at index 0 is
"tidb-cluster" with a non-nil extension map; the loop of `addTlsConfig` on
that document takes its branch at index 0; `addTlsConfig`, the construction of
the document and the whole of `RenderPrometheusConfig` finish without a
panic, whatever the namespace list, the alert address and the TLS flag. -/
theorem C9_document_total (m : MonitorConfigModel) (P : Regexp)
    (h : m.ReleaseTargetRegex = some P) :
    ∃ base, newPrometheusConfig m = .ok base ∧
      (∃ job rest xxx, base.ScrapeConfigs = job :: rest ∧ job.JobName = "tidb-cluster" ∧
        job.HTTPClientConfig.XXX = some xxx) ∧
      (∃ scrapeConfigs, addTlsConfig.loop 0 base.ScrapeConfigs = .ok (some 0, scrapeConfigs)) ∧
      (∃ pc, addTlsConfig base m = .ok pc) ∧
      (∃ pc, RenderPrometheusConfig.document m = .ok pc) ∧
      ∀ (ε : Type) (marshal : Config → String × Option ε),
        ∃ out, RenderPrometheusConfig marshal m = .ok out := by
  obtain ⟨pc, hpc⟩ := document_total m P h
  obtain ⟨url, ns, re, tls⟩ := m
  simp only at h
  subst h
  refine ⟨_, rfl, ⟨_, _, _, rfl, rfl, rfl⟩, ⟨_, rfl⟩, ⟨_, rfl⟩, ⟨pc, hpc⟩, ?_⟩
  intro ε marshal
  rcases hm : marshal pc with ⟨bs, _ | err⟩
  · exact ⟨_, by simp [RenderPrometheusConfig, hpc, hm]; rfl⟩
  · exact ⟨_, by simp [RenderPrometheusConfig, hpc, hm]; rfl⟩

/-- Witness of C9 with an empty namespace list, an empty alert address and
TLS enabled. -/
theorem C9_document_total_witness :
    exampleModelPlain.ReleaseTargetRegex = some examplePattern ∧
    ∃ pc, RenderPrometheusConfig.document
      { exampleModelPlain with ReleaseNamespaces := [], EnableTLSCluster := true } = .ok pc := by
  refine ⟨rfl, ?_⟩
  obtain ⟨_, _, _, _, _, h, _⟩ :=
    C9_document_total { exampleModelPlain with ReleaseNamespaces := [], EnableTLSCluster := true }
      examplePattern rfl
  exact h

/-- The two optional steps commute on every document. -/
theorem addTlsConfig_addAlertManagerUrl_comm (pc : Config) (m : MonitorConfigModel) :
    (addTlsConfig pc m).map (fun d => addAlertManagerUrl d m) =
      addTlsConfig (addAlertManagerUrl pc m) m := by
  unfold addTlsConfig
  have hs : (addAlertManagerUrl pc m).ScrapeConfigs = pc.ScrapeConfigs := rfl
  rw [hs]
  rcases addTlsConfig.loop 0 pc.ScrapeConfigs with e | ⟨found, scs⟩
  · rfl
  · rcases m.ReleaseTargetRegex with _ | re
    · rfl
    · rfl

/-- C10: two parameter records (patterns present) that agree on namespaces,
pattern and TLS flag yield documents with the same global settings, rule
files and scrape jobs, whatever their alert addresses; two records with the
same alert address yield documents with the same alerting configuration,
whatever their other fields; and on the base document `addTlsConfig` followed
by `addAlertManagerUrl` gives the same result as the opposite order. -/
theorem C10_features_independent (m1 m2 : MonitorConfigModel) (P1 P2 : Regexp)
    (h1 : m1.ReleaseTargetRegex = some P1) (h2 : m2.ReleaseTargetRegex = some P2) :
    ∃ pc1 pc2 base, RenderPrometheusConfig.document m1 = .ok pc1 ∧
      RenderPrometheusConfig.document m2 = .ok pc2 ∧
      newPrometheusConfig m1 = .ok base ∧
      (m1.ReleaseNamespaces = m2.ReleaseNamespaces → P1 = P2 →
        m1.EnableTLSCluster = m2.EnableTLSCluster →
        pc1.GlobalConfig = pc2.GlobalConfig ∧ pc1.RuleFiles = pc2.RuleFiles ∧
        pc1.ScrapeConfigs = pc2.ScrapeConfigs) ∧
      (m1.AlertmanagerURL = m2.AlertmanagerURL → pc1.AlertingConfig = pc2.AlertingConfig) ∧
      (addTlsConfig base m1).map (fun d => addAlertManagerUrl d m1) =
        addTlsConfig (addAlertManagerUrl base m1) m1 := by
  obtain ⟨url1, ns1, re1, tls1⟩ := m1
  obtain ⟨url2, ns2, re2, tls2⟩ := m2
  simp only at h1 h2
  subst h1 h2
  cases tls1 <;> cases tls2 <;>
    refine ⟨_, _, _, rfl, rfl, rfl, ?_, ?_, addTlsConfig_addAlertManagerUrl_comm _ _⟩
  all_goals first
    | (intro _ _ htls
       simp only at htls
       exact absurd htls (by decide))
    | (intro hns hP _
       simp only at hns
       subst hns hP
       split <;> split <;> exact ⟨rfl, rfl, rfl⟩)
    | (intro hu
       simp only at hu
       subst hu
       by_cases hz : url1.utf8ByteSize > 0
       · simp only [if_pos hz]
         rfl
       · simp only [if_neg hz])

/-- Witness of C10: the second end-to-end example with and without its alert
address. -/
theorem C10_features_independent_witness :
    exampleModelTLS.ReleaseTargetRegex = some examplePattern ∧
    ({ exampleModelTLS with AlertmanagerURL := "" } : MonitorConfigModel).ReleaseTargetRegex =
      some examplePattern ∧
    ∃ pc1 pc2,
      RenderPrometheusConfig.document exampleModelTLS = .ok pc1 ∧
      RenderPrometheusConfig.document { exampleModelTLS with AlertmanagerURL := "" } = .ok pc2 ∧
      pc1.ScrapeConfigs = pc2.ScrapeConfigs := by
  refine ⟨rfl, rfl, ?_⟩
  obtain ⟨pc1, pc2, _, h1, h2, _, h3, _⟩ :=
    C10_features_independent exampleModelTLS { exampleModelTLS with AlertmanagerURL := "" }
      examplePattern examplePattern rfl rfl
  exact ⟨pc1, pc2, h1, h2, (h3 rfl rfl rfl).2.2⟩

/-- C5 as stated fails: "foo-tikv-" is matched by `tikvPattern` although no
digit follows "-tikv-", and a string with a line feed before "-tikv-0" is not
matched although it ends in "-tikv-" followed by a digit. -/
theorem C5_tikv_pattern_counterexample :
    (tikvPattern.MatchString "foo-tikv-" = some true ∧
      ¬ ∃ p d : List Char, "foo-tikv-".data = p ++ "-tikv-".data ++ d ∧ d ≠ [] ∧
          ∀ c ∈ d, c.isDigit = true) ∧
    (tikvPattern.MatchString "a\n-tikv-0" = some false ∧
      ∃ p d : List Char, "a\n-tikv-0".data = p ++ "-tikv-".data ++ d ∧ d ≠ [] ∧
          ∀ c ∈ d, c.isDigit = true) := by
  refine ⟨⟨by decide, ?_⟩, by decide, ?_⟩
  · rintro ⟨p, d, h, hne, hd⟩
    rcases List.eq_nil_or_concat d with rfl | ⟨d', x, rfl⟩
    · exact hne rfl
    · have e : p ++ "-tikv-".data ++ d'.concat x = (p ++ "-tikv-".data ++ d') ++ [x] := by
        simp
      have hl := congrArg List.getLast? h
      rw [e, List.getLast?_concat] at hl
      have hx : x = '-' := by
        have : "foo-tikv-".data.getLast? = some '-' := by decide
        rw [this] at hl
        exact (Option.some.inj hl).symm
      have := hd x (by simp)
      rw [hx] at this
      exact absurd this (by decide)
  · exact ⟨['a', Char.ofNat 10], ['0'], by decide, by decide, by decide⟩

/-- C5, amended: with `EnableTLSCluster` true the primary job contains the
drop rule on the pod-name label with `tikvPattern`; the pattern matches
"foo-tikv-0", does not match "foo-tikv-abc", and matches a string iff the
string is a line-feed-free text followed by "-tikv-" followed by zero or more
ASCII digits. -/
theorem C5_tikv_drop_rule (m : MonitorConfigModel) (P : Regexp)
    (h : m.ReleaseTargetRegex = some P) (htls : m.EnableTLSCluster = true) :
    ∃ pc, RenderPrometheusConfig.document m = .ok pc ∧
    ∃ job rest, pc.ScrapeConfigs = job :: rest ∧ job.JobName = "tidb-cluster" ∧
      ({ SourceLabels := [podNameLabel], Action := "drop", Regex := tikvPattern } :
        RelabelConfig) ∈ job.RelabelConfigs ∧
      tikvPattern.original = ".*\\-tikv\\-\\d*$" ∧
      tikvPattern.MatchString "foo-tikv-0" = some true ∧
      tikvPattern.MatchString "foo-tikv-abc" = some false ∧
      ∀ s : String, tikvPattern.MatchString s = some true ↔
        ∃ p d : List Char, s.data = p ++ "-tikv-".data ++ d ∧
          (∀ c ∈ p, c ≠ Char.ofNat 10) ∧ ∀ c ∈ d, c.isDigit = true := by
  obtain ⟨url, ns, re, tls⟩ := m
  simp only at h htls
  subst h htls
  refine ⟨_, rfl, ?_⟩
  split
  · refine ⟨_, _, rfl, rfl, ?_, rfl, by decide, by decide, tikvPattern_iff⟩
    simp [addTlsConfig.updateJob, podNameLabel]
  · refine ⟨_, _, rfl, rfl, ?_, rfl, by decide, by decide, tikvPattern_iff⟩
    simp [addTlsConfig.updateJob, podNameLabel]

/-- Witness of C5 at the second end-to-end example of the specification. -/
theorem C5_tikv_drop_rule_witness :
    exampleModelTLS.ReleaseTargetRegex = some examplePattern ∧
    exampleModelTLS.EnableTLSCluster = true ∧
    tikvPattern.MatchString "basic-tikv-12" = some true := by
  refine ⟨rfl, rfl, ?_⟩
  obtain ⟨_, _, _, _, _, _, _, _, _, _, hs⟩ :=
    C5_tikv_drop_rule exampleModelTLS examplePattern rfl rfl
  exact (hs "basic-tikv-12").2 ⟨"basic".data, "12".data, by decide, by decide, by decide⟩

end Monitor
